import Mathlib

/-!
Verification development for the ticket-master helpdesk service.

The definitions below are a shallow embedding of the server code:

* `src/server/routes.ts` — the HTTP route handlers (auth gates, role checks,
  payload massaging, response shaping);
* `src/server/storage.ts` — `MemStorage` and `DatabaseStorage`;
* `src/shared/schema.ts` — the zod `insertTicketSchema` (the `z.object`
  variant) and the drizzle `tickets` / `users` tables;
* `src/unnamed/part_005` — `EnhancedDatabaseStorage` (update stamping and
  cascading delete);
* `src/database-schema.sql` — NOT NULL constraints on the `tickets` table.

JavaScript `undefined` / SQL `NULL` are modelled as `Option.none`; JavaScript
truthiness tests (`x || y`, `if (x)`) are modelled explicitly on `Option`
values, where the empty string and the number 0 are falsy.  Timestamps are
abstract `Nat` instants.  Foreign-key and enum-domain checks of the SQL
schema are not modelled (they can only turn some inserts into failures and
no claim depends on them); NOT NULL checks on the five location columns and
`created_by` are modelled because the location invariants depend on them.
-/

/-- The four roles of the `users.role` column (src/shared/schema.ts and the
`user_role` enum of src/unnamed/part_003). -/
inductive Role where
  | admin
  | manager
  | technician
  | user
deriving DecidableEq, Repr

/-- The authenticated actor attached to a request (`req.user`): a stable
numeric identity plus a role. -/
structure Actor where
  id : Nat
  role : Role
deriving DecidableEq, Repr

/-- JavaScript truthiness of an optional string: `undefined` and the empty
string are falsy. -/
def truthyStr : Option String → Bool
  | none => false
  | some s => !(s == "")

/-- JavaScript truthiness of an optional number: `undefined` and 0 are
falsy. -/
def truthyNum : Option Nat → Bool
  | none => false
  | some n => !(n == 0)

/-- The JavaScript expression `v || d` on an optional string. -/
def jsOrStr (v : Option String) (d : String) : String :=
  if truthyStr v then v.getD d else d

/-- The JavaScript expression `v || d` on an optional number. -/
def jsOrNum (v : Option Nat) (d : Nat) : Nat :=
  if truthyNum v then v.getD d else d

/-- The JavaScript expression `v || null` on an optional number (used by
`MemStorage.createTicket` for `assignedTo` and `approvedBy`). -/
def jsOrNull (v : Option Nat) : Option Nat :=
  if truthyNum v then v else none

/-- A stored ticket row.  Mirrors the drizzle `tickets` table of
src/shared/schema.ts; the five display-name fields are optional because
`MemStorage` keeps whatever the insert payload carried while the SQL table
has no such columns. -/
structure Ticket where
  id : Nat
  title : String
  description : String
  category : String
  priority : String
  status : String
  building : Option String := none
  floor : Option String := none
  room : Option String := none
  area : Option String := none
  element : Option String := none
  buildingId : Option Nat := none
  floorId : Option Nat := none
  roomId : Option Nat := none
  areaId : Option Nat := none
  elementId : Option Nat := none
  departmentId : Option Nat := none
  createdBy : Option Nat := none
  assignedTo : Option Nat := none
  approvedBy : Option Nat := none
  dueDate : Option Nat := none
  resolvedAt : Option Nat := none
  closedAt : Option Nat := none
  createdAt : Nat := 0
  updatedAt : Option Nat := none
deriving DecidableEq, Repr

/-- The validated output of `insertTicketSchema.parse` (the `z.object`
schema of src/shared/schema.ts, lines 87-117): `title` and `description`
are required non-empty strings, `category` and `priority` are required
strings, everything else is optional. -/
structure InsertTicket where
  title : String
  description : String
  category : String
  priority : String
  building : Option String := none
  floor : Option String := none
  room : Option String := none
  area : Option String := none
  element : Option String := none
  buildingId : Option Nat := none
  floorId : Option Nat := none
  roomId : Option Nat := none
  areaId : Option Nat := none
  elementId : Option Nat := none
  departmentId : Option Nat := none
  status : Option String := none
  createdBy : Option Nat := none
  assignedTo : Option Nat := none
  approvedBy : Option Nat := none
  dueDate : Option Nat := none
deriving DecidableEq, Repr

/-- The raw JSON body of a ticket request (`ticketData` after
`JSON.parse` in the POST and PATCH handlers): every field may be absent. -/
structure RawTicketData where
  title : Option String := none
  description : Option String := none
  category : Option String := none
  priority : Option String := none
  building : Option String := none
  floor : Option String := none
  room : Option String := none
  area : Option String := none
  element : Option String := none
  buildingId : Option Nat := none
  floorId : Option Nat := none
  roomId : Option Nat := none
  areaId : Option Nat := none
  elementId : Option Nat := none
  departmentId : Option Nat := none
  status : Option String := none
  createdBy : Option Nat := none
  assignedTo : Option Nat := none
  approvedBy : Option Nat := none
  dueDate : Option Nat := none
deriving DecidableEq, Repr

/-- The initial status computed by the POST /api/tickets handler
(src/server/routes.ts lines 306-317): default Czech "Otevřený" (Open);
managers and technicians may override it with a truthy payload status. -/
def initialStatus (role : Role) (raw : RawTicketData) : String :=
  let s0 := "Otevřený"
  let s1 := if role == Role.manager then jsOrStr raw.status s0 else s0
  if role == Role.technician then jsOrStr raw.status s1 else s1

/-- The `compatibleTicketData` object built by the POST /api/tickets handler
(src/server/routes.ts lines 329-351) before schema validation.  The rest
spread keeps `assignedTo`, `approvedBy`, `departmentId` and `dueDate` from
the payload; `status` and `createdBy` are overwritten server-side. -/
structure CompatData where
  title : Option String
  description : Option String
  building : String
  floor : String
  room : String
  area : String
  element : String
  category : String
  priority : String
  status : String
  createdBy : Nat
  buildingId : Option Nat
  floorId : Option Nat
  roomId : Option Nat
  areaId : Option Nat
  elementId : Option Nat
  departmentId : Option Nat
  assignedTo : Option Nat
  approvedBy : Option Nat
  dueDate : Option Nat
deriving DecidableEq, Repr

/-- Build `compatibleTicketData` from the raw payload and the authenticated
actor, following src/server/routes.ts lines 306-351 line by line. -/
def mkCompatData (actor : Actor) (raw : RawTicketData) : CompatData :=
  { title := raw.title
    description := raw.description
    building := jsOrStr raw.building ""
    floor := jsOrStr raw.floor ""
    room := jsOrStr raw.room ""
    area := jsOrStr raw.area ""
    element := jsOrStr raw.element ""
    category := jsOrStr raw.category "IT"
    priority := jsOrStr raw.priority "Nízká"
    status := initialStatus actor.role raw
    createdBy := actor.id
    buildingId := raw.buildingId
    floorId := raw.floorId
    roomId := raw.roomId
    areaId := raw.areaId
    elementId := raw.elementId
    departmentId := raw.departmentId
    assignedTo := raw.assignedTo
    approvedBy := raw.approvedBy
    dueDate := raw.dueDate }

/-- `insertTicketSchema.parse` on the compatible object: `title` and
`description` must be present with at least one character; all location
names and ids, `status`, `createdBy`, `assignedTo`, `approvedBy`,
`departmentId` and `dueDate` pass through unchecked (they are `optional`
in the zod schema). -/
def parseInsertTicket (d : CompatData) : Option InsertTicket :=
  match d.title, d.description with
  | some t, some desc =>
    if t.length < 1 then none
    else if desc.length < 1 then none
    else some
      { title := t
        description := desc
        category := d.category
        priority := d.priority
        building := some d.building
        floor := some d.floor
        room := some d.room
        area := some d.area
        element := some d.element
        buildingId := d.buildingId
        floorId := d.floorId
        roomId := d.roomId
        areaId := d.areaId
        elementId := d.elementId
        departmentId := d.departmentId
        status := some d.status
        createdBy := some d.createdBy
        assignedTo := d.assignedTo
        approvedBy := d.approvedBy
        dueDate := d.dueDate }
  | _, _ => none

/-- The id-defaulting of `DatabaseStorage.createTicket`
(src/server/storage.ts lines 376-402): if the id is falsy but the display
name is truthy, the id becomes the constant 1 — the comment in the source
reads "For now, just use default values for testing".  No lookup against
the location tables happens and no resolution error is ever raised. -/
def resolveLocId (givenId : Option Nat) (name : Option String) : Option Nat :=
  if truthyNum givenId then givenId
  else if truthyStr name then some 1
  else givenId

/-- Database-level failure of an INSERT (the modelled part of PostgreSQL:
NOT NULL constraint violations from src/database-schema.sql). -/
inductive DbError where
  | notNullViolation (column : String)
deriving DecidableEq, Repr

/-- `DatabaseStorage.createTicket` (src/server/storage.ts lines 373-439):
defaults the five location ids from names, then INSERTs title,
description, category, the five ids, priority, `status || 'Otevřený'` and
`createdBy || 5`.  The INSERT fails if one of the five location columns
would be NULL (they are NOT NULL in src/database-schema.sql);
`assigned_to`, `approved_by`, `department_id` and `due_date` are not in
the column list and stay NULL. -/
def dbCreateTicket (ins : InsertTicket) (nextId now : Nat) :
    Except DbError Ticket :=
  let bId := resolveLocId ins.buildingId ins.building
  let fId := resolveLocId ins.floorId ins.floor
  let rId := resolveLocId ins.roomId ins.room
  let aId := resolveLocId ins.areaId ins.area
  let eId := resolveLocId ins.elementId ins.element
  match bId, fId, rId, aId, eId with
  | some b, some f, some r, some a, some e =>
    Except.ok
      { id := nextId
        title := ins.title
        description := ins.description
        category := ins.category
        priority := ins.priority
        status := jsOrStr ins.status "Otevřený"
        buildingId := some b
        floorId := some f
        roomId := some r
        areaId := some a
        elementId := some e
        createdBy := some (jsOrNum ins.createdBy 5)
        createdAt := now }
  | none, _, _, _, _ => Except.error (DbError.notNullViolation "building_id")
  | _, none, _, _, _ => Except.error (DbError.notNullViolation "floor_id")
  | _, _, none, _, _ => Except.error (DbError.notNullViolation "room_id")
  | _, _, _, none, _ => Except.error (DbError.notNullViolation "area_id")
  | _, _, _, _, none => Except.error (DbError.notNullViolation "element_id")

/-- In-memory ticket store of `MemStorage` (src/server/storage.ts). -/
structure MemState where
  tickets : List Ticket := []
  ticketCurrentId : Nat := 1
deriving DecidableEq, Repr

/-- `MemStorage.createTicket` (src/server/storage.ts lines 131-160): spread
of the insert payload plus a fresh id, `status || 'Otevřený'`,
`assignedTo || null`, `approvedBy || null`, and null update/resolve/close
timestamps. -/
def memCreateTicket (st : MemState) (ins : InsertTicket) (now : Nat) :
    MemState × Ticket :=
  let t : Ticket :=
    { id := st.ticketCurrentId
      title := ins.title
      description := ins.description
      category := ins.category
      priority := ins.priority
      status := jsOrStr ins.status "Otevřený"
      building := ins.building
      floor := ins.floor
      room := ins.room
      area := ins.area
      element := ins.element
      buildingId := ins.buildingId
      floorId := ins.floorId
      roomId := ins.roomId
      areaId := ins.areaId
      elementId := ins.elementId
      departmentId := ins.departmentId
      createdBy := ins.createdBy
      assignedTo := jsOrNull ins.assignedTo
      approvedBy := jsOrNull ins.approvedBy
      dueDate := ins.dueDate
      createdAt := now }
  ({ tickets := st.tickets ++ [t], ticketCurrentId := st.ticketCurrentId + 1 }, t)

/-- Outcome of the POST /api/tickets handler. -/
inductive CreateOutcome where
  | unauthorized
  | validationError
  | serverError (e : DbError)
  | created (t : Ticket)
deriving DecidableEq, Repr

/-- POST /api/tickets against `DatabaseStorage` (src/server/routes.ts lines
279-376): authentication gate, `compatibleTicketData` construction, schema
validation, then `storage.createTicket`. -/
def postCreateTicketDb (actor : Option Actor) (raw : RawTicketData)
    (nextId now : Nat) : CreateOutcome :=
  match actor with
  | none => CreateOutcome.unauthorized
  | some a =>
    match parseInsertTicket (mkCompatData a raw) with
    | none => CreateOutcome.validationError
    | some ins =>
      match dbCreateTicket ins nextId now with
      | Except.ok t => CreateOutcome.created t
      | Except.error e => CreateOutcome.serverError e

/-- POST /api/tickets against `MemStorage`: same route logic, persisting
with `memCreateTicket`. -/
def postCreateTicketMem (actor : Option Actor) (raw : RawTicketData)
    (st : MemState) (now : Nat) : CreateOutcome × MemState :=
  match actor with
  | none => (CreateOutcome.unauthorized, st)
  | some a =>
    match parseInsertTicket (mkCompatData a raw) with
    | none => (CreateOutcome.validationError, st)
    | some ins =>
      let (st2, t) := memCreateTicket st ins now
      (CreateOutcome.created t, st2)

/-- Outcome of GET /api/tickets. -/
inductive ListOutcome where
  | unauthorized
  | ok (ts : List Ticket)
deriving DecidableEq, Repr

/-- GET /api/tickets (src/server/routes.ts lines 197-233 with the
`canViewAllTickets` middleware, lines 67-79).  For role `user` the
middleware sets `filterByUser` and the handler filters with a predicate
that returns `true` for every ticket — the source comment reads "For now,
we are returning all tickets for all users".  Managers are likewise
unfiltered; technicians see assigned-to-them or unassigned; admins see
all. -/
def getTicketsRoute (actor : Option Actor) (ts : List Ticket) : ListOutcome :=
  match actor with
  | none => ListOutcome.unauthorized
  | some a =>
    match a.role with
    | Role.user => ListOutcome.ok (ts.filter fun _ => true)
    | Role.manager => ListOutcome.ok (ts.filter fun _ => true)
    | Role.technician =>
      ListOutcome.ok (ts.filter fun t =>
        t.assignedTo == some a.id || t.assignedTo == none)
    | Role.admin => ListOutcome.ok ts

/-- Outcome of GET /api/tickets/:id. -/
inductive ReadOutcome where
  | unauthorized
  | notFound
  | forbidden (msg : String)
  | ok (t : Ticket)
deriving DecidableEq, Repr

/-- GET /api/tickets/:id (src/server/routes.ts lines 236-276).  For role
`user` the handler returns the ticket without any ownership check — the
source comment reads "In a real implementation, we would check
ticket.createdBy === req.user.id".  Managers get the ticket; technicians
only if assigned to them or unassigned; admins always. -/
def getTicketByIdRoute (actor : Option Actor) (id : Nat) (ts : List Ticket) :
    ReadOutcome :=
  match actor with
  | none => ReadOutcome.unauthorized
  | some a =>
    match ts.find? (fun t => t.id == id) with
    | none => ReadOutcome.notFound
    | some t =>
      match a.role with
      | Role.user => ReadOutcome.ok t
      | Role.manager => ReadOutcome.ok t
      | Role.technician =>
        if t.assignedTo == some a.id || t.assignedTo == none then
          ReadOutcome.ok t
        else
          ReadOutcome.forbidden
            "Forbidden: You can only view tickets assigned to you"
      | Role.admin => ReadOutcome.ok t

/-- The validated output of `insertTicketSchema.partial().parse` on a PATCH
body: every field optional; a present `title` or `description` must be
non-empty. -/
structure TicketUpdate where
  title : Option String := none
  description : Option String := none
  category : Option String := none
  priority : Option String := none
  building : Option String := none
  floor : Option String := none
  room : Option String := none
  area : Option String := none
  element : Option String := none
  buildingId : Option Nat := none
  floorId : Option Nat := none
  roomId : Option Nat := none
  areaId : Option Nat := none
  elementId : Option Nat := none
  departmentId : Option Nat := none
  status : Option String := none
  createdBy : Option Nat := none
  assignedTo : Option Nat := none
  approvedBy : Option Nat := none
  dueDate : Option Nat := none
deriving DecidableEq, Repr

/-- `insertTicketSchema.partial().parse` (src/server/routes.ts line 438):
all fields become optional, but the `min(1)` bounds on `title` and
`description` still apply to present values. -/
def parseTicketUpdate (raw : RawTicketData) : Option TicketUpdate :=
  if raw.title == some "" then none
  else if raw.description == some "" then none
  else some
    { title := raw.title
      description := raw.description
      category := raw.category
      priority := raw.priority
      building := raw.building
      floor := raw.floor
      room := raw.room
      area := raw.area
      element := raw.element
      buildingId := raw.buildingId
      floorId := raw.floorId
      roomId := raw.roomId
      areaId := raw.areaId
      elementId := raw.elementId
      departmentId := raw.departmentId
      status := raw.status
      createdBy := raw.createdBy
      assignedTo := raw.assignedTo
      approvedBy := raw.approvedBy
      dueDate := raw.dueDate }

/-- `DatabaseStorage.updateTicket` applied to a found row
(src/server/storage.ts lines 441-532): the dynamic SET list covers title,
description, category, the five location ids, priority, assignedTo,
approvedBy, status and dueDate — and nothing else.  In particular
`resolved_at` and `closed_at` are never in the SET list. -/
def dbApplyTicketUpdate (t : Ticket) (u : TicketUpdate) : Ticket :=
  { t with
    title := u.title.getD t.title
    description := u.description.getD t.description
    category := u.category.getD t.category
    buildingId := match u.buildingId with
      | some v => some v
      | none => t.buildingId
    floorId := match u.floorId with
      | some v => some v
      | none => t.floorId
    roomId := match u.roomId with
      | some v => some v
      | none => t.roomId
    areaId := match u.areaId with
      | some v => some v
      | none => t.areaId
    elementId := match u.elementId with
      | some v => some v
      | none => t.elementId
    priority := u.priority.getD t.priority
    assignedTo := match u.assignedTo with
      | some v => some v
      | none => t.assignedTo
    approvedBy := match u.approvedBy with
      | some v => some v
      | none => t.approvedBy
    status := u.status.getD t.status
    dueDate := match u.dueDate with
      | some v => some v
      | none => t.dueDate }

/-- Outcome of PATCH /api/tickets/:id. -/
inductive PatchOutcome where
  | unauthorized
  | notFound
  | forbidden (msg : String)
  | validationError
  | ok (t : Ticket)
deriving DecidableEq, Repr

/-- PATCH /api/tickets/:id (src/server/routes.ts lines 379-455):
authentication, ticket lookup, then per-role gates — a `user` is rejected
when the payload carries a truthy status, assignedTo or approvedBy (and is
never checked for ownership); a technician is rejected unless the ticket
is assigned to them or unassigned; managers and admins pass.  After the
gates the payload is validated and applied via
`DatabaseStorage.updateTicket`. -/
def patchTicketRoute (actor : Option Actor) (id : Nat) (raw : RawTicketData)
    (ts : List Ticket) : PatchOutcome × List Ticket :=
  match actor with
  | none => (PatchOutcome.unauthorized, ts)
  | some a =>
    match ts.find? (fun t => t.id == id) with
    | none => (PatchOutcome.notFound, ts)
    | some t =>
      if a.role == Role.user &&
          (truthyStr raw.status || truthyNum raw.assignedTo ||
            truthyNum raw.approvedBy) then
        (PatchOutcome.forbidden
          "Forbidden: Regular users cannot change ticket status or assignments",
          ts)
      else if a.role == Role.technician &&
          !(t.assignedTo == some a.id) && !(t.assignedTo == none) then
        (PatchOutcome.forbidden
          "Forbidden: Technicians can only update tickets assigned to them",
          ts)
      else
        match parseTicketUpdate raw with
        | none => (PatchOutcome.validationError, ts)
        | some u =>
          let t2 := dbApplyTicketUpdate t u
          (PatchOutcome.ok t2, ts.map fun x => if x.id == id then t2 else x)

/-- A client update for `EnhancedDatabaseStorage.updateTicket`: the
enhanced `insertTicketSchema` (src/unnamed/part_003 lines 388-394) omits
`resolvedAt` and `closedAt`, so a client payload has no such fields. -/
structure EnhTicketUpdate where
  title : Option String := none
  description : Option String := none
  category : Option String := none
  priority : Option String := none
  status : Option String := none
  buildingId : Option Nat := none
  floorId : Option Nat := none
  roomId : Option Nat := none
  areaId : Option Nat := none
  elementId : Option Nat := none
  departmentId : Option Nat := none
  createdBy : Option Nat := none
  assignedTo : Option Nat := none
  approvedBy : Option Nat := none
  dueDate : Option Nat := none
deriving DecidableEq, Repr

/-- `EnhancedDatabaseStorage.updateTicket` applied to the found current row
(src/unnamed/part_005 lines 304-336): when the payload status is truthy
and transitions into "Vyřešeno" (Resolved) from a different status, the
server stamps `resolvedAt` with the current instant; likewise "Uzavřeno"
(Closed) stamps `closedAt`; otherwise both timestamps are left untouched.
`updatedAt` is always set.  Drizzle skips undefined fields in `set`. -/
def enhancedUpdateTicket (cur : Ticket) (u : EnhTicketUpdate) (now : Nat) :
    Ticket :=
  let stampResolved := truthyStr u.status &&
    u.status == some "Vyřešeno" && !(cur.status == "Vyřešeno")
  let stampClosed := truthyStr u.status &&
    u.status == some "Uzavřeno" && !(cur.status == "Uzavřeno")
  { cur with
    title := u.title.getD cur.title
    description := u.description.getD cur.description
    category := u.category.getD cur.category
    priority := u.priority.getD cur.priority
    status := u.status.getD cur.status
    buildingId := match u.buildingId with
      | some v => some v
      | none => cur.buildingId
    floorId := match u.floorId with
      | some v => some v
      | none => cur.floorId
    roomId := match u.roomId with
      | some v => some v
      | none => cur.roomId
    areaId := match u.areaId with
      | some v => some v
      | none => cur.areaId
    elementId := match u.elementId with
      | some v => some v
      | none => cur.elementId
    departmentId := match u.departmentId with
      | some v => some v
      | none => cur.departmentId
    createdBy := match u.createdBy with
      | some v => some v
      | none => cur.createdBy
    assignedTo := match u.assignedTo with
      | some v => some v
      | none => cur.assignedTo
    approvedBy := match u.approvedBy with
      | some v => some v
      | none => cur.approvedBy
    dueDate := match u.dueDate with
      | some v => some v
      | none => cur.dueDate
    resolvedAt := if stampResolved then some now else cur.resolvedAt
    closedAt := if stampClosed then some now else cur.closedAt
    updatedAt := some now }

/-- A ticket comment row (src/unnamed/part_003 `ticket_comments`). -/
structure TicketComment where
  id : Nat
  ticketId : Nat
  userId : Nat
  comment : String
  isInternal : Bool := false
  createdAt : Nat := 0
deriving DecidableEq, Repr

/-- A ticket attachment row (src/unnamed/part_003 `ticket_attachments`). -/
structure TicketAttachment where
  id : Nat
  ticketId : Nat
  name : String
  mimeType : String
  size : Nat
  data : String
  uploadedBy : Option Nat := none
  createdAt : Nat := 0
deriving DecidableEq, Repr

/-- A ticket history row (src/unnamed/part_003 `ticket_history`). -/
structure TicketHistoryRecord where
  id : Nat
  ticketId : Nat
  userId : Option Nat := none
  field : String := ""
  oldValue : String := ""
  newValue : String := ""
  createdAt : Nat := 0
deriving DecidableEq, Repr

/-- Store holding tickets with their dependent comment, attachment and
history rows. -/
structure EnhStore where
  tickets : List Ticket := []
  comments : List TicketComment := []
  attachments : List TicketAttachment := []
  history : List TicketHistoryRecord := []
deriving DecidableEq, Repr

/-- `EnhancedDatabaseStorage.deleteTicket` (src/unnamed/part_005 lines
338-347): first deletes every comment, attachment and history row whose
`ticketId` matches, then deletes the ticket and reports whether a row was
deleted.  (`DatabaseStorage.deleteTicket` issues only the ticket DELETE
and relies on the ON DELETE CASCADE clauses of src/database-schema.sql for
the same dependent cleanup.) -/
def enhDeleteTicket (id : Nat) (st : EnhStore) : Bool × EnhStore :=
  let found := st.tickets.any fun t => t.id == id
  (found,
    { tickets := st.tickets.filter fun t => !(t.id == id)
      comments := st.comments.filter fun c => !(c.ticketId == id)
      attachments := st.attachments.filter fun a => !(a.ticketId == id)
      history := st.history.filter fun h => !(h.ticketId == id) })

/-- Outcome of DELETE /api/tickets/:id. -/
inductive DeleteOutcome where
  | unauthorized
  | forbidden (msg : String)
  | notFound
  | noContent
deriving DecidableEq, Repr

/-- DELETE /api/tickets/:id (src/server/routes.ts lines 457-474) behind the
`isAdmin` middleware (lines 28-38): 401 without authentication, 403 for
any non-admin role, otherwise the storage delete runs and a missing
ticket yields 404. -/
def deleteTicketRoute (actor : Option Actor) (id : Nat) (st : EnhStore) :
    DeleteOutcome × EnhStore :=
  match actor with
  | none => (DeleteOutcome.unauthorized, st)
  | some a =>
    if !(a.role == Role.admin) then
      (DeleteOutcome.forbidden "Forbidden: Admin access required", st)
    else
      match enhDeleteTicket id st with
      | (false, st2) => (DeleteOutcome.notFound, st2)
      | (true, st2) => (DeleteOutcome.noContent, st2)

/-- A stored user row (the drizzle `users` table of src/shared/schema.ts,
password hash included). -/
structure UserRec where
  id : Nat
  username : String
  password : String
  fullName : String := ""
  email : String := ""
  phone : Option String := none
  avatarUrl : Option String := none
  role : Role := Role.user
  departmentId : Option Nat := none
  isActive : Bool := true
  lastLogin : Option Nat := none
  createdAt : Nat := 0
  updatedAt : Option Nat := none
deriving DecidableEq, Repr

/-- Rendering of a role value as its database string. -/
def roleToString : Role → String
  | Role.admin => "admin"
  | Role.manager => "manager"
  | Role.technician => "technician"
  | Role.user => "user"

/-- Rendering of an optional value for the serialized JSON object. -/
def optField (v : Option String) : String :=
  match v with
  | none => "null"
  | some s => s

/-- The JSON object serialized from a user row: one key per own property of
the JavaScript `user` object, the stored password hash included. -/
def userToObj (u : UserRec) : List (String × String) :=
  [("id", toString u.id),
   ("username", u.username),
   ("password", u.password),
   ("fullName", u.fullName),
   ("email", u.email),
   ("phone", optField u.phone),
   ("avatarUrl", optField u.avatarUrl),
   ("role", roleToString u.role),
   ("departmentId", optField (u.departmentId.map toString)),
   ("isActive", toString u.isActive),
   ("lastLogin", optField (u.lastLogin.map toString)),
   ("createdAt", toString u.createdAt),
   ("updatedAt", optField (u.updatedAt.map toString))]

/-- The destructuring `const (password, ...safeUser) = user` used by every
user-management handler of src/server/routes.ts: the rest object holds
every own property except `password`. -/
def omitPassword (obj : List (String × String)) : List (String × String) :=
  obj.filter fun kv => !(kv.1 == "password")

/-- The validated output of `updateUserSchema.partial().parse`
(src/server/routes.ts line 546; schema in src/shared/schema.ts lines
155-163): fullName, email, phone, avatarUrl, role, departmentId and
isActive, all optional.  (The role string of a well-typed payload is
modelled as a `Role` value; role strings are never empty, so presence of
the field is its truthiness.) -/
structure UserUpdateData where
  fullName : Option String := none
  email : Option String := none
  phone : Option String := none
  avatarUrl : Option String := none
  role : Option Role := none
  departmentId : Option Nat := none
  isActive : Option Bool := none
deriving DecidableEq, Repr

/-- `DatabaseStorage.updateUser` applied to a found row
(src/server/storage.ts lines 257-318): dynamic SET of exactly the provided
fields. -/
def dbApplyUserUpdate (u : UserRec) (d : UserUpdateData) : UserRec :=
  { u with
    fullName := d.fullName.getD u.fullName
    email := d.email.getD u.email
    phone := match d.phone with
      | some v => some v
      | none => u.phone
    avatarUrl := match d.avatarUrl with
      | some v => some v
      | none => u.avatarUrl
    role := d.role.getD u.role
    departmentId := match d.departmentId with
      | some v => some v
      | none => u.departmentId
    isActive := d.isActive.getD u.isActive }

/-- Outcome of a user-management route. -/
inductive UserOutcome where
  | unauthorized
  | forbidden (msg : String)
  | notFound
  | badRequest
  | okObj (obj : List (String × String))
  | okList (objs : List (List (String × String)))
deriving DecidableEq, Repr

/-- GET /api/users (src/server/routes.ts lines 479-491) behind `isAdmin`:
returns every stored user with the password property removed. -/
def getAllUsersRoute (actor : Option Actor) (users : List UserRec) :
    UserOutcome :=
  match actor with
  | none => UserOutcome.unauthorized
  | some a =>
    if !(a.role == Role.admin) then
      UserOutcome.forbidden "Forbidden: Admin access required"
    else
      UserOutcome.okList (users.map fun u => omitPassword (userToObj u))

/-- GET /api/users/:id (src/server/routes.ts lines 494-521): own record or
admin; the password property is removed from the response. -/
def getUserByIdRoute (actor : Option Actor) (id : Nat)
    (users : List UserRec) : UserOutcome :=
  match actor with
  | none => UserOutcome.unauthorized
  | some a =>
    if !(a.id == id) && !(a.role == Role.admin) then
      UserOutcome.forbidden "Forbidden: You can only view your own user details"
    else
      match users.find? (fun u => u.id == id) with
      | none => UserOutcome.notFound
      | some u => UserOutcome.okObj (omitPassword (userToObj u))

/-- PATCH /api/users/:id (src/server/routes.ts lines 524-565): own record
or admin; only admins may change roles; the update is applied through
`DatabaseStorage.updateUser` and the password property is removed from the
response. -/
def patchUserRoute (actor : Option Actor) (id : Nat) (d : UserUpdateData)
    (users : List UserRec) : UserOutcome × List UserRec :=
  match actor with
  | none => (UserOutcome.unauthorized, users)
  | some a =>
    if !(a.id == id) && !(a.role == Role.admin) then
      (UserOutcome.forbidden "Forbidden: You can only update your own profile",
        users)
    else if !(d.role == none) && !(a.role == Role.admin) then
      (UserOutcome.forbidden "Forbidden: Only admins can change roles", users)
    else
      match users.find? (fun u => u.id == id) with
      | none => (UserOutcome.notFound, users)
      | some u =>
        let u2 := dbApplyUserUpdate u d
        (UserOutcome.okObj (omitPassword (userToObj u2)),
          users.map fun x => if x.id == id then u2 else x)

/-- POST /api/users/:id/set-active (src/server/routes.ts lines 650-673)
behind `isAdmin`: requires a boolean `isActive` in the body, updates the
user, and removes the password property from the response. -/
def setActiveRoute (actor : Option Actor) (id : Nat)
    (isActive : Option Bool) (users : List UserRec) :
    UserOutcome × List UserRec :=
  match actor with
  | none => (UserOutcome.unauthorized, users)
  | some a =>
    if !(a.role == Role.admin) then
      (UserOutcome.forbidden "Forbidden: Admin access required", users)
    else
      match isActive with
      | none => (UserOutcome.badRequest, users)
      | some b =>
        match users.find? (fun u => u.id == id) with
        | none => (UserOutcome.notFound, users)
        | some u =>
          let u2 := dbApplyUserUpdate u { isActive := some b }
          (UserOutcome.okObj (omitPassword (userToObj u2)),
            users.map fun x => if x.id == id then u2 else x)

theorem parseInsertTicket_createdBy (d : CompatData) (ins : InsertTicket)
    (h : parseInsertTicket d = some ins) : ins.createdBy = some d.createdBy := by
  unfold parseInsertTicket at h
  split at h
  · split at h
    · exact absurd h (by simp)
    · split at h
      · exact absurd h (by simp)
      · obtain rfl := Option.some.inj h
        rfl
  · exact absurd h (by simp)

theorem dbCreateTicket_createdBy (ins : InsertTicket) (nextId now : Nat)
    (t : Ticket) (h : dbCreateTicket ins nextId now = Except.ok t) :
    t.createdBy = some (jsOrNum ins.createdBy 5) := by
  simp only [dbCreateTicket] at h
  split at h
  · obtain rfl := Except.ok.inj h
    rfl
  all_goals exact absurd h (by simp)

theorem jsOrNum_pos (n d : Nat) (h : 0 < n) : jsOrNum (some n) d = n := by
  simp [jsOrNum, truthyNum, Nat.pos_iff_ne_zero.mp h]

/-- Claim C1: the visibility rule for role `user` (a ticket is visible iff
`ticket.createdBy == actor.id`) is stated in the source comments of the
GET handlers but not implemented: the list handler filter returns `true`
for every ticket and the single-ticket handler returns the ticket without
an ownership check.  Here actor 1 with role `user` receives ticket 7
created by user 2, in the list and by direct read. -/
theorem c1_user_visibility_not_enforced :
    getTicketsRoute (some ⟨1, Role.user⟩)
      [{ id := 7, title := "Porucha", description := "Popis", category := "IT",
         priority := "Nízká", status := "Otevřený", createdBy := some 2 }] =
      ListOutcome.ok
        [{ id := 7, title := "Porucha", description := "Popis",
           category := "IT", priority := "Nízká", status := "Otevřený",
           createdBy := some 2 }] ∧
    getTicketByIdRoute (some ⟨1, Role.user⟩) 7
      [{ id := 7, title := "Porucha", description := "Popis", category := "IT",
         priority := "Nízká", status := "Otevřený", createdBy := some 2 }] =
      ReadOutcome.ok
        { id := 7, title := "Porucha", description := "Popis",
          category := "IT", priority := "Nízká", status := "Otevřený",
          createdBy := some 2 } := by
  exact ⟨rfl, rfl⟩

/-- Claim C2: location resolution never fails.  `DatabaseStorage.createTicket`
maps any truthy display name with no id to the constant id 1 (its comment
reads "For now, just use default values for testing") and no
`LocationResolutionError` exists anywhere in the repository.  Here a
creation request with five unknown display names and no ids persists a
ticket with all five ids equal to 1 instead of failing at the building
level. -/
theorem c2_name_resolution_stubbed :
    postCreateTicketDb (some ⟨3, Role.user⟩)
      { title := some "Rozbitá zásuvka", description := some "Nefunguje",
        building := some "Neznámá budova", floor := some "Neznámé patro",
        room := some "Neznámá místnost", area := some "Neznámá zóna",
        element := some "Neznámý prvek" } 10 100 =
    CreateOutcome.created
      { id := 10, title := "Rozbitá zásuvka", description := "Nefunguje",
        category := "IT", priority := "Nízká", status := "Otevřený",
        buildingId := some 1, floorId := some 1, roomId := some 1,
        areaId := some 1, elementId := some 1, createdBy := some 3,
        createdAt := 100 } := by
  rfl

/-- Claim C3: for every authenticated creation request the persisted
ticket references the authenticated actor as creator, whatever `createdBy`
the payload carried: the route overwrites `createdBy` with `req.user.id`
after the payload spread, on both storage backends. -/
theorem c3_createdBy_forced_to_actor (a : Actor) (raw : RawTicketData)
    (nextId now : Nat) (tk : Ticket) (hid : 0 < a.id) :
    (postCreateTicketDb (some a) raw nextId now = CreateOutcome.created tk →
      tk.createdBy = some a.id) ∧
    (∀ st st2, postCreateTicketMem (some a) raw st now =
        (CreateOutcome.created tk, st2) → tk.createdBy = some a.id) := by
  constructor
  · intro h
    simp only [postCreateTicketDb] at h
    split at h
    · exact absurd h (by simp)
    · rename_i ins hp
      split at h
      · rename_i t2 hdb
        have ht : t2 = tk := CreateOutcome.created.inj h
        subst ht
        have h1 := dbCreateTicket_createdBy ins nextId now _ hdb
        have h2 := parseInsertTicket_createdBy _ _ hp
        rw [h1, h2]
        simp [mkCompatData, jsOrNum_pos a.id 5 hid]
      · exact absurd h (by simp)
  · intro st st2 h
    simp only [postCreateTicketMem] at h
    split at h
    · exact absurd h (by simp)
    · rename_i ins hp
      simp only [memCreateTicket] at h
      rw [Prod.mk.injEq] at h
      obtain ⟨h1, h2⟩ := h
      obtain rfl : _ = tk := CreateOutcome.created.inj h1
      have hc := parseInsertTicket_createdBy _ _ hp
      simpa [mkCompatData] using hc

/-- Witness for claim C3 at a concrete request: actor 4 creates a ticket
whose payload claims `createdBy = 99`; the persisted creator is 4. -/
theorem c3_createdBy_forced_to_actor_witness :
    ({ id := 10, title := "Test", description := "Popis", category := "IT",
       priority := "Nízká", status := "Otevřený", buildingId := some 1,
       floorId := some 1, roomId := some 1, areaId := some 1,
       elementId := some 1, createdBy := some 4,
       createdAt := 100 } : Ticket).createdBy = some 4 := by
  exact (c3_createdBy_forced_to_actor ⟨4, Role.user⟩
    { title := some "Test", description := some "Popis",
      building := some "Budova A", floor := some "Patro 1",
      room := some "101", area := some "Zóna", element := some "Prvek",
      createdBy := some 99 } 10 100 _ (by decide)).1 rfl

/-- Claim C4 counterexample: actor 1 with role `user` PATCHes only the
title of ticket 7, which was created by user 2, and the update is
permitted and applied — the handler checks no ownership, so the clause
"only on tickets whose createdBy equals the actor id" is false. -/
theorem c4_counterexample_ownership_not_checked :
    patchTicketRoute (some ⟨1, Role.user⟩) 7 { title := some "Nový titulek" }
      [{ id := 7, title := "Starý titulek", description := "Popis",
         category := "IT", priority := "Nízká", status := "Otevřený",
         createdBy := some 2 }] =
    (PatchOutcome.ok
      { id := 7, title := "Nový titulek", description := "Popis",
        category := "IT", priority := "Nízká", status := "Otevřený",
        createdBy := some 2 },
     [{ id := 7, title := "Nový titulek", description := "Popis",
        category := "IT", priority := "Nízká", status := "Otevřený",
        createdBy := some 2 }]) := by
  rfl

/-- Claim C4 as amended: an update by a `user`-role actor whose payload
carries a truthy status, assignedTo or approvedBy is rejected in full
with Forbidden and the store is left unchanged, regardless of any other
fields in the payload; an update touching none of those three fields is
permitted and applied on any existing ticket, with no ownership
requirement on `createdBy`. -/
theorem c4_user_update_gate (a : Actor) (id : Nat) (raw : RawTicketData)
    (ts : List Ticket) (t : Ticket) (hrole : a.role = Role.user)
    (hfind : ts.find? (fun x => x.id == id) = some t) :
    ((truthyStr raw.status || truthyNum raw.assignedTo ||
        truthyNum raw.approvedBy) = true →
      patchTicketRoute (some a) id raw ts =
        (PatchOutcome.forbidden
          "Forbidden: Regular users cannot change ticket status or assignments",
          ts)) ∧
    (raw.status = none → raw.assignedTo = none → raw.approvedBy = none →
      ∀ u, parseTicketUpdate raw = some u →
        patchTicketRoute (some a) id raw ts =
          (PatchOutcome.ok (dbApplyTicketUpdate t u),
            ts.map fun x => if x.id == id then dbApplyTicketUpdate t u else x)) := by
  constructor
  · intro htr
    simp [patchTicketRoute, hfind, hrole, htr]
  · intro hs hat hap u hu
    simp [patchTicketRoute, hfind, hrole, hs, hat, hap, hu, truthyStr, truthyNum]

/-- Witness for the amended claim C4: a status-bearing payload from a
`user` actor is rejected with Forbidden and the store is unchanged. -/
theorem c4_user_update_gate_witness :
    patchTicketRoute (some ⟨1, Role.user⟩) 7 { status := some "Uzavřeno" }
      [{ id := 7, title := "Starý titulek", description := "Popis",
         category := "IT", priority := "Nízká", status := "Otevřený",
         createdBy := some 2 }] =
    (PatchOutcome.forbidden
      "Forbidden: Regular users cannot change ticket status or assignments",
     [{ id := 7, title := "Starý titulek", description := "Popis",
        category := "IT", priority := "Nízká", status := "Otevřený",
        createdBy := some 2 }]) :=
  (c4_user_update_gate ⟨1, Role.user⟩ 7 { status := some "Uzavřeno" }
    [{ id := 7, title := "Starý titulek", description := "Popis",
       category := "IT", priority := "Nízká", status := "Otevřený",
       createdBy := some 2 }]
    { id := 7, title := "Starý titulek", description := "Popis",
      category := "IT", priority := "Nízká", status := "Otevřený",
      createdBy := some 2 } rfl rfl).1 rfl

/-- Claim C5: a `technician` update on an existing ticket is never met
with Forbidden when the ticket is assigned to the actor or unassigned,
and is rejected with the Forbidden message naming the assignment
constraint — with the store unchanged — when it is assigned to someone
else; when permitted and valid, the update is applied. -/
theorem c5_technician_assignment_gate (a : Actor) (id : Nat)
    (raw : RawTicketData) (ts : List Ticket) (t : Ticket)
    (hrole : a.role = Role.technician)
    (hfind : ts.find? (fun x => x.id == id) = some t) :
    ((t.assignedTo = some a.id ∨ t.assignedTo = none) →
      (∀ msg, (patchTicketRoute (some a) id raw ts).1 ≠
        PatchOutcome.forbidden msg) ∧
      (∀ u, parseTicketUpdate raw = some u →
        patchTicketRoute (some a) id raw ts =
          (PatchOutcome.ok (dbApplyTicketUpdate t u),
            ts.map fun x => if x.id == id then dbApplyTicketUpdate t u else x))) ∧
    (t.assignedTo ≠ some a.id → t.assignedTo ≠ none →
      patchTicketRoute (some a) id raw ts =
        (PatchOutcome.forbidden
          "Forbidden: Technicians can only update tickets assigned to them",
          ts)) := by
  constructor
  · intro hcond
    constructor
    · intro msg
      rcases hcond with h | h <;>
        cases hp : parseTicketUpdate raw <;>
          simp [patchTicketRoute, hfind, hrole, h, hp]
    · intro u hu
      rcases hcond with h | h <;>
        simp [patchTicketRoute, hfind, hrole, h, hu]
  · intro h1 h2
    simp [patchTicketRoute, hfind, hrole, h1, h2]

/-- Witness for claim C5: technician 3 updates ticket 7 assigned to them
and the priority change is applied; the same route is exercised through
the theorem with both hypotheses discharged concretely. -/
theorem c5_technician_assignment_gate_witness :
    patchTicketRoute (some ⟨3, Role.technician⟩) 7
      { priority := some "Vysoká" }
      [{ id := 7, title := "Porucha", description := "Popis",
         category := "IT", priority := "Nízká", status := "Otevřený",
         assignedTo := some 3 }] =
    (PatchOutcome.ok
      { id := 7, title := "Porucha", description := "Popis",
        category := "IT", priority := "Vysoká", status := "Otevřený",
        assignedTo := some 3 },
     [{ id := 7, title := "Porucha", description := "Popis",
        category := "IT", priority := "Vysoká", status := "Otevřený",
        assignedTo := some 3 }]) := by
  have h := ((c5_technician_assignment_gate ⟨3, Role.technician⟩ 7
    { priority := some "Vysoká" }
    [{ id := 7, title := "Porucha", description := "Popis",
       category := "IT", priority := "Nízká", status := "Otevřený",
       assignedTo := some 3 }]
    { id := 7, title := "Porucha", description := "Popis",
      category := "IT", priority := "Nízká", status := "Otevřený",
      assignedTo := some 3 } rfl rfl).1 (Or.inl rfl)).2 _ rfl
  simpa using h

/-- Claim C6 counterexample: through the registered PATCH route — which
persists via `DatabaseStorage.updateTicket` — an admin sets status to
"Vyřešeno" (Resolved) on an open ticket and the stored `resolvedAt`
remains null: the SET list of `DatabaseStorage.updateTicket` never
contains `resolved_at`, so no stamp happens on this path. -/
theorem c6_counterexample_routes_update_never_stamps :
    patchTicketRoute (some ⟨9, Role.admin⟩) 7 { status := some "Vyřešeno" }
      [{ id := 7, title := "Porucha", description := "Popis",
         category := "IT", priority := "Nízká", status := "Otevřený" }] =
    (PatchOutcome.ok
      { id := 7, title := "Porucha", description := "Popis",
        category := "IT", priority := "Nízká", status := "Vyřešeno",
        resolvedAt := none },
     [{ id := 7, title := "Porucha", description := "Popis",
        category := "IT", priority := "Nízká", status := "Vyřešeno",
        resolvedAt := none }]) := by
  rfl

/-- Claim C6 as amended: the once-only stamping rule holds for
`EnhancedDatabaseStorage.updateTicket` — transitioning into "Vyřešeno"
stamps `resolvedAt` with the server clock, re-sending the status on an
already-resolved ticket leaves `resolvedAt` unchanged, the same for
"Uzavřeno" and `closedAt`, any other payload leaves both untouched, and
the client update type carries no resolvedAt or closedAt field at all —
while `DatabaseStorage.updateTicket`, the implementation wired to the
routes, never writes either timestamp. -/
theorem c6_enhanced_stamp_once (cur : Ticket) (u : EnhTicketUpdate)
    (now : Nat) :
    (u.status = some "Vyřešeno" → cur.status ≠ "Vyřešeno" →
      (enhancedUpdateTicket cur u now).resolvedAt = some now) ∧
    (u.status = some "Vyřešeno" → cur.status = "Vyřešeno" →
      (enhancedUpdateTicket cur u now).resolvedAt = cur.resolvedAt) ∧
    (u.status = some "Uzavřeno" → cur.status ≠ "Uzavřeno" →
      (enhancedUpdateTicket cur u now).closedAt = some now) ∧
    (u.status = some "Uzavřeno" → cur.status = "Uzavřeno" →
      (enhancedUpdateTicket cur u now).closedAt = cur.closedAt) ∧
    (u.status = none →
      (enhancedUpdateTicket cur u now).resolvedAt = cur.resolvedAt ∧
      (enhancedUpdateTicket cur u now).closedAt = cur.closedAt) ∧
    (∀ t v, (dbApplyTicketUpdate t v).resolvedAt = t.resolvedAt ∧
      (dbApplyTicketUpdate t v).closedAt = t.closedAt) := by
  refine ⟨?_, ?_, ?_, ?_, ?_, ?_⟩
  · intro hs hne
    simp [enhancedUpdateTicket, truthyStr, hs, hne]
  · intro hs heq
    simp [enhancedUpdateTicket, truthyStr, hs, heq]
  · intro hs hne
    simp [enhancedUpdateTicket, truthyStr, hs, hne]
  · intro hs heq
    simp [enhancedUpdateTicket, truthyStr, hs, heq]
  · intro hs
    constructor <;> simp [enhancedUpdateTicket, truthyStr, hs]
  · intro t v
    exact ⟨rfl, rfl⟩

/-- Witness for the amended claim C6: resolving an open ticket through
`EnhancedDatabaseStorage.updateTicket` at instant 50 stamps
`resolvedAt = 50`. -/
theorem c6_enhanced_stamp_once_witness :
    (enhancedUpdateTicket
      { id := 7, title := "Porucha", description := "Popis",
        category := "IT", priority := "Nízká", status := "Otevřený" }
      { status := some "Vyřešeno" } 50).resolvedAt = some 50 :=
  (c6_enhanced_stamp_once
    { id := 7, title := "Porucha", description := "Popis",
      category := "IT", priority := "Nízká", status := "Otevřený" }
    { status := some "Vyřešeno" } 50).1 rfl (by decide)

theorem strLen_not_lt_one (s : String) (h : s ≠ "") : ¬ s.length < 1 := by
  intro hl
  apply h
  have h0 : s.length = 0 := Nat.lt_one_iff.mp hl
  cases s with
  | mk data =>
    cases data with
    | nil => rfl
    | cons c cs => simp [String.length] at h0

/-- Claim C7 counterexample: a creation request with no location
information at all — no names, no ids — passes validation and is
persisted by `MemStorage` with empty location strings and no location
ids, instead of being rejected before resolution. -/
theorem c7_counterexample_locationless_ticket_persisted :
    postCreateTicketMem (some ⟨1, Role.user⟩)
      { title := some "Bez lokace", description := some "Popis" }
      ⟨[], 1⟩ 100 =
    (CreateOutcome.created
      { id := 1, title := "Bez lokace", description := "Popis",
        category := "IT", priority := "Nízká", status := "Otevřený",
        building := some "", floor := some "", room := some "",
        area := some "", element := some "", createdBy := some 1,
        createdAt := 100 },
     ⟨[{ id := 1, title := "Bez lokace", description := "Popis",
         category := "IT", priority := "Nízká", status := "Otevřený",
         building := some "", floor := some "", room := some "",
         area := some "", element := some "", createdBy := some 1,
         createdAt := 100 }], 2⟩) := by
  rfl

/-- Claim C7 as amended: a ticket persisted through the SQL INSERT of
`DatabaseStorage.createTicket` does carry all five location ids (the
columns are NOT NULL in src/database-schema.sql), but the insert schema
treats every location name and id as optional and the creation route
performs no pre-resolution rejection: a request without any location
information passes validation, is persisted by `MemStorage` without
location references, and on `DatabaseStorage` dies as a NOT NULL
constraint violation surfaced as a server error, not as a validation
rejection. -/
theorem c7_location_optionality (ins : InsertTicket) (nextId now : Nat)
    (tk : Ticket) (a : Actor) (raw : RawTicketData) (st : MemState)
    (tt dd : String) :
    (dbCreateTicket ins nextId now = Except.ok tk →
      (∃ b, tk.buildingId = some b) ∧ (∃ f, tk.floorId = some f) ∧
      (∃ r, tk.roomId = some r) ∧ (∃ ar, tk.areaId = some ar) ∧
      (∃ e, tk.elementId = some e)) ∧
    (raw.title = some tt → tt ≠ "" →
     raw.description = some dd → dd ≠ "" →
     raw.building = none → raw.floor = none → raw.room = none →
     raw.area = none → raw.element = none →
     raw.buildingId = none → raw.floorId = none → raw.roomId = none →
     raw.areaId = none → raw.elementId = none →
     ∃ ins2, parseInsertTicket (mkCompatData a raw) = some ins2 ∧
       (postCreateTicketMem (some a) raw st now).2.tickets.length =
         st.tickets.length + 1 ∧
       dbCreateTicket ins2 nextId now =
         Except.error (DbError.notNullViolation "building_id")) := by
  constructor
  · intro h
    simp only [dbCreateTicket] at h
    split at h
    · obtain rfl := Except.ok.inj h
      exact ⟨⟨_, rfl⟩, ⟨_, rfl⟩, ⟨_, rfl⟩, ⟨_, rfl⟩, ⟨_, rfl⟩⟩
    all_goals exact absurd h (by simp)
  · intro ht htne hd hdne hb hf hr har he hbi hfi hri hai hei
    have hparse : parseInsertTicket (mkCompatData a raw) = some
        { title := tt, description := dd
          category := jsOrStr raw.category "IT"
          priority := jsOrStr raw.priority "Nízká"
          building := some "", floor := some "", room := some ""
          area := some "", element := some ""
          departmentId := raw.departmentId
          status := some (initialStatus a.role raw)
          createdBy := some a.id
          assignedTo := raw.assignedTo
          approvedBy := raw.approvedBy
          dueDate := raw.dueDate } := by
      simp [parseInsertTicket, mkCompatData, ht, hd, hb, hf, hr, har, he,
        strLen_not_lt_one tt htne, strLen_not_lt_one dd hdne, jsOrStr,
        truthyStr, hbi, hfi, hri, hai, hei]
    refine ⟨_, hparse, ?_, ?_⟩
    · simp [postCreateTicketMem, hparse, memCreateTicket]
    · simp [dbCreateTicket, resolveLocId, truthyNum, truthyStr]

/-- Witness for the amended claim C7 at a concrete location-free request:
validation passes, `MemStorage` persists one ticket, and the SQL insert
path reports the NOT NULL violation on `building_id`. -/
theorem c7_location_optionality_witness :
    ∃ ins2, parseInsertTicket (mkCompatData ⟨1, Role.user⟩
        { title := some "Bez lokace", description := some "Popis" }) =
          some ins2 ∧
      (postCreateTicketMem (some ⟨1, Role.user⟩)
          { title := some "Bez lokace", description := some "Popis" }
          (MemState.mk [] 1) 100).2.tickets.length =
        (MemState.mk [] 1).tickets.length + 1 ∧
      dbCreateTicket ins2 10 100 =
        Except.error (DbError.notNullViolation "building_id") :=
  (c7_location_optionality
    { title := "", description := "", category := "", priority := "" } 10 100
    { id := 0, title := "", description := "", category := "",
      priority := "", status := "" } ⟨1, Role.user⟩
    { title := some "Bez lokace", description := some "Popis" }
    (MemState.mk [] 1) "Bez lokace" "Popis").2 rfl (by decide) rfl (by decide)
    rfl rfl rfl rfl rfl rfl rfl rfl rfl rfl

theorem parseInsertTicket_status (d : CompatData) (ins : InsertTicket)
    (h : parseInsertTicket d = some ins) : ins.status = some d.status := by
  unfold parseInsertTicket at h
  split at h
  · split at h
    · exact absurd h (by simp)
    · split at h
      · exact absurd h (by simp)
      · obtain rfl := Option.some.inj h
        rfl
  · exact absurd h (by simp)

theorem postCreateTicketMem_created_status (a : Actor) (raw : RawTicketData)
    (st st2 : MemState) (now : Nat) (tk : Ticket)
    (h : postCreateTicketMem (some a) raw st now =
      (CreateOutcome.created tk, st2)) :
    tk.status = jsOrStr (some (initialStatus a.role raw)) "Otevřený" := by
  simp only [postCreateTicketMem] at h
  split at h
  · exact absurd h (by simp)
  · rename_i ins hp
    simp only [memCreateTicket] at h
    rw [Prod.mk.injEq] at h
    obtain ⟨h1, h2⟩ := h
    obtain rfl : _ = tk := CreateOutcome.created.inj h1
    have hs := parseInsertTicket_status _ _ hp
    simp [hs, mkCompatData]

/-- Claim C8: through the POST route with `MemStorage` persistence, the
stored initial status is the Czech "Otevřený" (Open) whenever the creator
has role `user` or `admin`, regardless of the payload; for `manager` and
`technician` creators a supplied non-empty status is honored and an
absent status falls back to "Otevřený". -/
theorem c8_initial_status_policy (a : Actor) (raw : RawTicketData)
    (st st2 : MemState) (now : Nat) (tk : Ticket)
    (h : postCreateTicketMem (some a) raw st now =
      (CreateOutcome.created tk, st2)) :
    ((a.role = Role.user ∨ a.role = Role.admin) → tk.status = "Otevřený") ∧
    ((a.role = Role.manager ∨ a.role = Role.technician) →
      (∀ s, raw.status = some s → s ≠ "" → tk.status = s) ∧
      (raw.status = none → tk.status = "Otevřený")) := by
  have hst := postCreateTicketMem_created_status a raw st st2 now tk h
  constructor
  · rintro (hr | hr) <;> rw [hst] <;>
      simp [initialStatus, hr, jsOrStr, truthyStr]
  · intro hr
    constructor
    · intro s hs hne
      rcases hr with hr | hr <;> rw [hst] <;>
        simp [initialStatus, hr, hs, jsOrStr, truthyStr, hne]
    · intro hs
      rcases hr with hr | hr <;> rw [hst] <;>
        simp [initialStatus, hr, hs, jsOrStr, truthyStr]

/-- Witness for claim C8: a manager-created ticket with payload status
"Schváleno" persists with exactly that status. -/
theorem c8_initial_status_policy_witness :
    ({ id := 1, title := "Pre-triage", description := "Popis",
       category := "IT", priority := "Nízká", status := "Schváleno",
       building := some "", floor := some "", room := some "",
       area := some "", element := some "", createdBy := some 2,
       createdAt := 100 } : Ticket).status = "Schváleno" :=
  ((c8_initial_status_policy ⟨2, Role.manager⟩
    { title := some "Pre-triage", description := some "Popis",
      status := some "Schváleno" }
    (MemState.mk [] 1)
    (MemState.mk
      [{ id := 1, title := "Pre-triage", description := "Popis",
         category := "IT", priority := "Nízká", status := "Schváleno",
         building := some "", floor := some "", room := some "",
         area := some "", element := some "", createdBy := some 2,
         createdAt := 100 }] 2) 100
    { id := 1, title := "Pre-triage", description := "Popis",
      category := "IT", priority := "Nízká", status := "Schváleno",
      building := some "", floor := some "", room := some "",
      area := some "", element := some "", createdBy := some 2,
      createdAt := 100 } rfl).2 (Or.inl rfl)).1 "Schváleno" rfl (by decide)

/-- Claim C9: ticket deletion is admin-only — an unauthenticated request
gets Unauthorized and any non-admin role gets Forbidden, with the store
untouched — and a deletion performed by an admin leaves no comment,
attachment or history row whose ticketId matches the deleted ticket, nor
the ticket itself, reporting success when the ticket existed. -/
theorem c9_delete_admin_only_with_cascade (a : Actor) (idt : Nat)
    (st : EnhStore) :
    (deleteTicketRoute none idt st = (DeleteOutcome.unauthorized, st)) ∧
    (a.role ≠ Role.admin →
      deleteTicketRoute (some a) idt st =
        (DeleteOutcome.forbidden "Forbidden: Admin access required", st)) ∧
    (a.role = Role.admin →
      ((st.tickets.any fun t => t.id == idt) = true →
        (deleteTicketRoute (some a) idt st).1 = DeleteOutcome.noContent) ∧
      (∀ c ∈ (deleteTicketRoute (some a) idt st).2.comments,
        c.ticketId ≠ idt) ∧
      (∀ x ∈ (deleteTicketRoute (some a) idt st).2.attachments,
        x.ticketId ≠ idt) ∧
      (∀ hr ∈ (deleteTicketRoute (some a) idt st).2.history,
        hr.ticketId ≠ idt) ∧
      (∀ t ∈ (deleteTicketRoute (some a) idt st).2.tickets, t.id ≠ idt)) := by
  refine ⟨rfl, ?_, ?_⟩
  · intro hne
    simp [deleteTicketRoute, hne]
  · intro hadm
    have h2 : (deleteTicketRoute (some a) idt st).2 =
        { tickets := st.tickets.filter fun t => !(t.id == idt)
          comments := st.comments.filter fun c => !(c.ticketId == idt)
          attachments := st.attachments.filter fun x => !(x.ticketId == idt)
          history := st.history.filter fun hh => !(hh.ticketId == idt) } := by
      cases hany : (st.tickets.any fun t => t.id == idt) <;>
        simp [deleteTicketRoute, hadm, enhDeleteTicket, hany]
    refine ⟨?_, ?_, ?_, ?_, ?_⟩
    · intro hany
      simp [deleteTicketRoute, hadm, enhDeleteTicket, hany]
    · intro c hc
      rw [h2] at hc
      simp only [List.mem_filter, Bool.not_eq_eq_eq_not, Bool.not_true,
        beq_eq_false_iff_ne] at hc
      exact hc.2
    · intro x hx
      rw [h2] at hx
      simp only [List.mem_filter, Bool.not_eq_eq_eq_not, Bool.not_true,
        beq_eq_false_iff_ne] at hx
      exact hx.2
    · intro hr hhr
      rw [h2] at hhr
      simp only [List.mem_filter, Bool.not_eq_eq_eq_not, Bool.not_true,
        beq_eq_false_iff_ne] at hhr
      exact hhr.2
    · intro t ht
      rw [h2] at ht
      simp only [List.mem_filter, Bool.not_eq_eq_eq_not, Bool.not_true,
        beq_eq_false_iff_ne] at ht
      exact ht.2

/-- Witness for claim C9: an admin deletes ticket 3 from a store that
holds a comment, an attachment and a history row for it; the route
reports success. -/
theorem c9_delete_admin_only_with_cascade_witness :
    (deleteTicketRoute (some ⟨9, Role.admin⟩) 3
      { tickets := [{ id := 3, title := "Porucha", description := "Popis", category := "IT", priority := "Nízká", status := "Otevřený" }]
        comments := [{ id := 1, ticketId := 3, userId := 2, comment := "Poznámka" }]
        attachments := [{ id := 1, ticketId := 3, name := "foto.png", mimeType := "image/png", size := 10, data := "QUJD" }]
        history := [{ id := 1, ticketId := 3, field := "status", oldValue := "Otevřený", newValue := "Přiřazeno" }] }).1 =
    DeleteOutcome.noContent :=
  ((c9_delete_admin_only_with_cascade ⟨9, Role.admin⟩ 3
    { tickets := [{ id := 3, title := "Porucha", description := "Popis", category := "IT", priority := "Nízká", status := "Otevřený" }]
      comments := [{ id := 1, ticketId := 3, userId := 2, comment := "Poznámka" }]
      attachments := [{ id := 1, ticketId := 3, name := "foto.png", mimeType := "image/png", size := 10, data := "QUJD" }]
      history := [{ id := 1, ticketId := 3, field := "status", oldValue := "Otevřený", newValue := "Přiřazeno" }] }).2.2 rfl).1 rfl

theorem omitPassword_lookup (u : UserRec) :
    (omitPassword (userToObj u)).lookup "password" = none := rfl

/-- Claim C10: none of the four user-management responses ever carries
the password property: each handler serializes the user through the
rest-destructuring that removes the `password` key before responding. -/
theorem c10_password_never_in_responses (actor : Option Actor) (idu : Nat)
    (users : List UserRec) (d : UserUpdateData) (b : Option Bool) :
    (∀ objs, getAllUsersRoute actor users = UserOutcome.okList objs →
      ∀ o ∈ objs, o.lookup "password" = none) ∧
    (∀ o, getUserByIdRoute actor idu users = UserOutcome.okObj o →
      o.lookup "password" = none) ∧
    (∀ o us2, patchUserRoute actor idu d users = (UserOutcome.okObj o, us2) →
      o.lookup "password" = none) ∧
    (∀ o us2, setActiveRoute actor idu b users = (UserOutcome.okObj o, us2) →
      o.lookup "password" = none) := by
  refine ⟨?_, ?_, ?_, ?_⟩
  · intro objs hobjs o ho
    cases actor with
    | none => exact absurd hobjs (by simp [getAllUsersRoute])
    | some a =>
      simp only [getAllUsersRoute] at hobjs
      split at hobjs
      · exact absurd hobjs (by simp)
      · obtain rfl := UserOutcome.okList.inj hobjs
        simp only [List.mem_map] at ho
        obtain ⟨u, hu, rfl⟩ := ho
        exact omitPassword_lookup u
  · intro o ho
    cases actor with
    | none => exact absurd ho (by simp [getUserByIdRoute])
    | some a =>
      simp only [getUserByIdRoute] at ho
      split at ho
      · exact absurd ho (by simp)
      · split at ho
        · exact absurd ho (by simp)
        · obtain rfl := UserOutcome.okObj.inj ho
          exact omitPassword_lookup _
  · intro o us2 ho
    cases actor with
    | none => exact absurd ho (by simp [patchUserRoute])
    | some a =>
      simp only [patchUserRoute] at ho
      split at ho
      · exact absurd ho (by simp)
      · split at ho
        · exact absurd ho (by simp)
        · split at ho
          · exact absurd ho (by simp)
          · rw [Prod.mk.injEq] at ho
            obtain ⟨ho1, ho2⟩ := ho
            obtain rfl := UserOutcome.okObj.inj ho1
            exact omitPassword_lookup _
  · intro o us2 ho
    cases actor with
    | none => exact absurd ho (by simp [setActiveRoute])
    | some a =>
      simp only [setActiveRoute] at ho
      split at ho
      · exact absurd ho (by simp)
      · split at ho
        · exact absurd ho (by simp)
        · split at ho
          · exact absurd ho (by simp)
          · rw [Prod.mk.injEq] at ho
            obtain ⟨ho1, ho2⟩ := ho
            obtain rfl := UserOutcome.okObj.inj ho1
            exact omitPassword_lookup _

/-- Witness for claim C10: the single-user read of user 1 by admin 1
carries no password key. -/
theorem c10_password_never_in_responses_witness :
    (omitPassword (userToObj
      { id := 1, username := "admin", password := "tajny-hash" })).lookup
      "password" = none :=
  (c10_password_never_in_responses (some ⟨1, Role.admin⟩) 1
    [{ id := 1, username := "admin", password := "tajny-hash" }]
    {} none).2.1
    (omitPassword (userToObj
      { id := 1, username := "admin", password := "tajny-hash" })) rfl
